import Mathlib

/-!
Verification of the catalog backend's core logic, shallowly embedded from
the Python source:

* `plan_catalog_pages`                  — src/routes/catalog.py, Page Planner
* `generate_master_catalog`             — src/routes/catalog.py, Catalog Assembler
* `generate_model_image` fallback loop  — src/services/gemini_client.py
* content cache (`_get_cached_image` / `_cache_image` around generation)
  as used by `generate_catalog_product_page_v2`
* `_extract_image_from_response`        — src/services/gemini_client.py
* `check_job_status` state mapping and `download_batch_results`
                                        — src/services/batch_service.py
* `_create_catalog_requests`            — src/services/batch_service.py

External capabilities (the Gemini API, PIL decoding, base64, hashing) are
modelled as oracle parameters; everything the repository itself computes is
translated directly from the source.
-/

/-- The front/back view selector used for single-product pages. -/
inductive View
  | front
  | back
deriving DecidableEq, Repr

/-- Layout kinds dispatched by the catalog assembler.  The planner emits
`collage`, `fabric_v2` and `single_v2`; `combo`, `front` and `back` are the
legacy kinds the assembler still handles. -/
inductive LayoutType
  | collage
  | fabric_v2
  | single_v2
  | combo
  | front
  | back
deriving DecidableEq, Repr

/-- The `additional_data` dict attached to each planned page: the planner
stores `page_number` for every page and `view` for single pages.  `none`
models an absent key (reads in the assembler use `.get` with a default). -/
structure Extra where
  view : Option View
  page_number : Option Nat
deriving DecidableEq, Repr

/-- One entry of the page plan: the tuple
`(layout_type, product_index, additional_data)` built by
`plan_catalog_pages`. -/
structure PageEntry where
  layout : LayoutType
  prod_idx : Nat
  extra : Extra
deriving DecidableEq, Repr

/-- Step 3 of `plan_catalog_pages`: the single-product pages filling the
remaining budget.  `fuel` is Python's `range(remaining)` counter, `page_idx`
the running page counter, `view_toggle` and `current_product` the loop state.
The loop breaks when `page_idx >= content_pages`. -/
def single_view_pages (num_products : Nat) (content_pages : Int) :
    Nat → Nat → Bool → Nat → List PageEntry
  | 0, _, _, _ => []
  | fuel + 1, page_idx, view_toggle, current_product =>
    if (page_idx : Int) ≥ content_pages then []
    else
      let prod_idx := current_product % num_products
      let v := if view_toggle then View.front else View.back
      let vt := !view_toggle
      let cp := if !vt then current_product + 1 else current_product
      ⟨LayoutType.single_v2, prod_idx, ⟨some v, some (page_idx + 1)⟩⟩ ::
        single_view_pages num_products content_pages fuel (page_idx + 1) vt cp

/-- `plan_catalog_pages(num_products, max_pages)` from src/routes/catalog.py.
`num_products` is always a list length, hence a `Nat`; `max_pages` is kept as
an integer so that `content_pages = max_pages - 2` and
`remaining = content_pages - num_collages - num_fabric` can go negative
exactly as in Python (a negative `remaining` makes `range(remaining)` empty,
modelled by `Int.toNat`). -/
def plan_catalog_pages (num_products : Nat) (max_pages : Int) : List PageEntry :=
  if num_products ≤ 2 then
    ((List.range num_products).map fun i =>
      (⟨LayoutType.collage, i, ⟨none, some (i + 1)⟩⟩ : PageEntry))
      ++ [⟨LayoutType.fabric_v2, 0, ⟨none, some (num_products + 1)⟩⟩]
  else
    let content_pages : Int := max_pages - 2
    let num_collages := min num_products 4
    let num_fabric : Nat := 1
    let remaining : Int := content_pages - num_collages - num_fabric
    let collages := (List.range num_collages).map fun i =>
      (⟨LayoutType.collage, i % num_products, ⟨none, some (i + 1)⟩⟩ : PageEntry)
    let fabric_idx := num_collages
    let fabrics := (List.range num_fabric).map fun i =>
      (⟨LayoutType.fabric_v2, (fabric_idx + i) % num_products,
        ⟨none, some (num_collages + i + 1)⟩⟩ : PageEntry)
    collages ++ fabrics ++
      single_view_pages num_products content_pages remaining.toNat
        (num_collages + num_fabric) true 0

/-- `GeminiClient.PRIMARY_MODEL` from src/services/gemini_client.py. -/
def PRIMARY_MODEL : String := "gemini-3-pro-image-preview"

/-- `GeminiClient.FALLBACK_MODEL` from src/services/gemini_client.py. -/
def FALLBACK_MODEL : String := "gemini-2.0-flash-exp"

/-- The model-fallback loop of `generate_model_image`
(src/services/gemini_client.py): the body iterates over
`[PRIMARY_MODEL, FALLBACK_MODEL]`; an exception on the primary attempt is
swallowed and the fallback model is tried, while an exception on the last
attempt (`attempt == 1`) is re-raised.  `call model` is the oracle for one
attempt (timeout wrapper, API call and response extraction); the returned
list records which models were attempted, in order. -/
def generate_model_image {E B : Type} (call : String → Except E B) :
    List String × Except E B :=
  match call PRIMARY_MODEL with
  | Except.ok r => ([PRIMARY_MODEL], Except.ok r)
  | Except.error _ =>
    match call FALLBACK_MODEL with
    | Except.ok r => ([PRIMARY_MODEL, FALLBACK_MODEL], Except.ok r)
    | Except.error e => ([PRIMARY_MODEL, FALLBACK_MODEL], Except.error e)

/-- Lookup in the content cache, modelling `_get_cached_image`
(src/services/gemini_client.py): the cache directory keyed by cache key. -/
def cache_lookup : List (String × List Nat) → String → Option (List Nat)
  | [], _ => none
  | (k, v) :: rest, key => if k = key then some v else cache_lookup rest key

/-- `_cache_image`: persist the generated image under its key. -/
def cache_store (cache : List (String × List Nat)) (key : String)
    (img : List Nat) : List (String × List Nat) :=
  (key, img) :: cache

/-- The cached-generation pattern of `generate_catalog_product_page_v2`
(src/services/gemini_client.py): check the cache for the fingerprint; on a
hit return the cached bytes without generating; on a miss invoke the
generation, store the result under the fingerprint and return it.
`calls` counts the generation invocations made so far and `compute n` is the
image produced by the `(n+1)`-th invocation, so that the external call need
not be deterministic. -/
def generate_cached (cache : List (String × List Nat)) (calls : Nat)
    (key : String) (compute : Nat → List Nat) :
    List (String × List Nat) × Nat × List Nat :=
  match cache_lookup cache key with
  | some img => (cache, calls, img)
  | none =>
    let img := compute calls
    (cache_store cache key img, calls + 1, img)

/-- The `state_mapping` dictionary of `check_job_status`
(src/services/batch_service.py), mapping the Gemini batch job state name to
the internal status. -/
def state_mapping (s : String) : Option String :=
  if s = "JOB_STATE_PENDING" then some "pending"
  else if s = "JOB_STATE_RUNNING" then some "running"
  else if s = "JOB_STATE_SUCCEEDED" then some "succeeded"
  else if s = "JOB_STATE_FAILED" then some "failed"
  else if s = "JOB_STATE_CANCELLED" then some "failed"
  else if s = "JOB_STATE_EXPIRED" then some "failed"
  else none

/-- `job_info.status = state_mapping.get(batch_job.state.name, 'pending')`. -/
def map_batch_state (s : String) : String :=
  (state_mapping s).getD "pending"

/-- The view name interpolated into filenames by `generate_master_catalog`. -/
def view_name : View → String
  | View.front => "front"
  | View.back => "back"

/-- Python's `f"{n:02d}"` formatting used for page-numbered filenames. -/
def pad2 (n : Nat) : String :=
  if n < 10 then "0" ++ toString n else toString n

/-- The oracle interface to `GeminiClient` as used by
`generate_master_catalog` (src/routes/catalog.py): one `Except`-valued
capability per generation method, abstracted over the garment bytes (which
the assembler selects by product index) and the fixed scalar parameters.
`E` is the exception type, `B` the image-bytes type. -/
structure Gemini (E B : Type) where
  generate_catalog_cover_enhanced : Except E B
  generate_collage_layout : Nat → Nat → Except E B
  generate_fabric_closeup_v2 : Nat → Nat → Except E B
  generate_catalog_product_page_v2 : Nat → View → Nat → Except E B
  generate_combo_layout : Nat → Except E B
  generate_catalog_thankyou_simple : Except E B

/-- The generation call made for one plan entry inside the `try` block of
the content-page loop: the dispatch on `layout_type`, with `page_number`
read from `extra` with default `page_num` (the 1-based loop counter) and the
view read from `extra` with default `front`. -/
def entry_call {E B : Type} (g : Gemini E B) (page_num : Nat)
    (e : PageEntry) : Except E B :=
  match e.layout with
  | LayoutType.collage =>
    g.generate_collage_layout e.prod_idx (e.extra.page_number.getD page_num)
  | LayoutType.fabric_v2 =>
    g.generate_fabric_closeup_v2 e.prod_idx (e.extra.page_number.getD page_num)
  | LayoutType.single_v2 =>
    g.generate_catalog_product_page_v2 e.prod_idx (e.extra.view.getD View.front)
      (e.extra.page_number.getD page_num)
  | LayoutType.combo => g.generate_combo_layout e.prod_idx
  | LayoutType.front =>
    g.generate_catalog_product_page_v2 e.prod_idx View.front page_num
  | LayoutType.back =>
    g.generate_catalog_product_page_v2 e.prod_idx View.back page_num

/-- The output filename recorded for one successfully generated plan entry
(`f"{page_num:02d}_..._product_{prod_idx + 1}.png"`). -/
def entry_filename (page_num : Nat) (e : PageEntry) : String :=
  match e.layout with
  | LayoutType.collage =>
    pad2 page_num ++ "_collage_product_" ++ toString (e.prod_idx + 1) ++ ".png"
  | LayoutType.fabric_v2 =>
    pad2 page_num ++ "_fabric_art_" ++ toString (e.prod_idx + 1) ++ ".png"
  | LayoutType.single_v2 =>
    pad2 page_num ++ "_" ++ view_name (e.extra.view.getD View.front) ++
      "_product_" ++ toString (e.prod_idx + 1) ++ ".png"
  | LayoutType.combo =>
    pad2 page_num ++ "_combo_product_" ++ toString (e.prod_idx + 1) ++ ".png"
  | LayoutType.front =>
    pad2 page_num ++ "_front_product_" ++ toString (e.prod_idx + 1) ++ ".png"
  | LayoutType.back =>
    pad2 page_num ++ "_back_product_" ++ toString (e.prod_idx + 1) ++ ".png"

/-- The content-page loop of `generate_master_catalog`:
`for page_num, (layout_type, prod_idx, extra) in enumerate(page_plan, 1)`,
where a failing generation call is caught (`except Exception: continue`) so
the entry is skipped and the loop continues with the next entry; a
successful call appends `(filename, bytes)`. -/
def content_pages_loop {E B : Type} (g : Gemini E B) :
    Nat → List PageEntry → List (String × B)
  | _, [] => []
  | page_num, e :: rest =>
    match entry_call g page_num e with
    | Except.ok b =>
      (entry_filename page_num e, b) :: content_pages_loop g (page_num + 1) rest
    | Except.error _ => content_pages_loop g (page_num + 1) rest

/-- The assembly skeleton of `generate_master_catalog`
(src/routes/catalog.py): generate the cover (a failure aborts the job — its
exception escapes to the outer handler), then the planned content pages
(failures skipped), then the thank-you page (failure aborts), and return
the ordered `(filename, image_bytes)` sequence. -/
def generate_master_catalog_pages {E B : Type} (g : Gemini E B)
    (page_plan : List PageEntry) : Except E (List (String × B)) :=
  match g.generate_catalog_cover_enhanced with
  | Except.error e => Except.error e
  | Except.ok cover =>
    let imgs := ("00_cover.png", cover) :: content_pages_loop g 1 page_plan
    match g.generate_catalog_thankyou_simple with
    | Except.error e => Except.error e
    | Except.ok ty => Except.ok (imgs ++ [("99_thankyou.png", ty)])

/-- `generate_master_catalog` invokes the planner with the default budget of
10 pages and assembles the plan. -/
def generate_master_catalog {E B : Type} (g : Gemini E B)
    (num_products : Nat) : Except E (List (String × B)) :=
  generate_master_catalog_pages g (plan_catalog_pages num_products 10)

/-- A concrete Gemini oracle whose collage generation fails for product
index 2 and succeeds everywhere else. -/
def c3_gemini : Gemini String Nat where
  generate_catalog_cover_enhanced := Except.ok 100
  generate_collage_layout := fun i p =>
    if i = 2 then Except.error "boom" else Except.ok (10 * i + p)
  generate_fabric_closeup_v2 := fun i _ => Except.ok (200 + i)
  generate_catalog_product_page_v2 := fun i _ p => Except.ok (300 + 10 * i + p)
  generate_combo_layout := fun i => Except.ok i
  generate_catalog_thankyou_simple := Except.ok 101

/-- The first two entries of `plan_catalog_pages 5 10`. -/
def c3_pre : List PageEntry :=
  [⟨LayoutType.collage, 0, ⟨none, some 1⟩⟩,
   ⟨LayoutType.collage, 1, ⟨none, some 2⟩⟩]

/-- The third entry of `plan_catalog_pages 5 10`, whose generation fails
under `c3_gemini`. -/
def c3_entry : PageEntry := ⟨LayoutType.collage, 2, ⟨none, some 3⟩⟩

/-- The entries of `plan_catalog_pages 5 10` after the failing one. -/
def c3_post : List PageEntry :=
  [⟨LayoutType.collage, 3, ⟨none, some 4⟩⟩,
   ⟨LayoutType.fabric_v2, 4, ⟨none, some 5⟩⟩,
   ⟨LayoutType.single_v2, 0, ⟨some View.front, some 6⟩⟩,
   ⟨LayoutType.single_v2, 1, ⟨some View.back, some 7⟩⟩,
   ⟨LayoutType.single_v2, 1, ⟨some View.front, some 8⟩⟩]

/-- The `inlineData` object of one response part in the batch result
transcript: `data` is `none` when the `data` key is missing (reading it then
raises a `KeyError`, which `download_batch_results` catches). -/
structure InlinePayload where
  data : Option String
deriving DecidableEq, Repr

/-- One part of a batch response record.  `inlineData = none` models a part
whose `inlineData` entry is absent or falsy (`part.get('inlineData')`). -/
structure BatchPart where
  inlineData : Option InlinePayload
deriving DecidableEq, Repr

/-- Outcome of navigating the nested candidates/content/parts fields of a
batch record's response: either the parts list, or a `KeyError`/`IndexError`
raised on the way (missing key, empty candidate list), which the extraction
loop catches. -/
inductive PartsShape
  | ok (parts : List BatchPart)
  | badShape
deriving DecidableEq, Repr

/-- One parsed line of the batch result transcript.  `response = none`
models an absent or falsy `response` entry; `error` is the `error` entry
(only logged by the code). -/
structure BatchRecord where
  key : Option String
  response : Option PartsShape
  error : Option String
deriving DecidableEq, Repr

/-- One raw line of the transcript: blank (skipped before parsing), not
valid JSON (`json.loads` raises), or a parsed record. -/
inductive BatchLine
  | blank
  | malformed
  | record (r : BatchRecord)
deriving DecidableEq, Repr

/-- The scan `for part in parts` that breaks at the first part with a truthy
`inlineData`: that part decides the record's fate. -/
def first_inline : List BatchPart → Option InlinePayload
  | [] => none
  | p :: rest =>
    match p.inlineData with
    | some blob => some blob
    | none => first_inline rest

/-- The record's correlation key with its positional default,
`parsed.get` of the key falling back to `image_` plus the current image
count. -/
def record_key (r : BatchRecord) (nimages : Nat) : String :=
  r.key.getD ("image_" ++ toString nimages)

/-- The extraction loop of `download_batch_results`
(src/services/batch_service.py).  `b64` is the `base64.b64decode` oracle,
whose failure (`binascii.Error`) is NOT among the caught exception classes
(only `KeyError` and `IndexError` are caught), so it aborts the whole loop;
a malformed JSON line likewise aborts at `json.loads`.  Structural problems
inside a record (`badShape`, missing `data`, absent response, explicit error
records) are caught or skipped and the loop continues. -/
def extract_lines (b64 : String → Except String (List Nat)) :
    List BatchLine → List (String × List Nat) →
    Except String (List (String × List Nat))
  | [], images => Except.ok images
  | line :: rest, images =>
    match line with
    | BatchLine.blank => extract_lines b64 rest images
    | BatchLine.malformed => Except.error "json.loads"
    | BatchLine.record r =>
      match r.response with
      | some (PartsShape.ok parts) =>
        match first_inline parts with
        | some blob =>
          match blob.data with
          | some s =>
            match b64 s with
            | Except.ok img =>
              extract_lines b64 rest
                (images ++ [(record_key r images.length ++ ".png", img)])
            | Except.error e => Except.error e
          | none => extract_lines b64 rest images
        | none => extract_lines b64 rest images
      | some PartsShape.badShape => extract_lines b64 rest images
      | none => extract_lines b64 rest images

/-- The image-collection phase of `download_batch_results`, starting from an
empty image list. -/
def download_batch_images (b64 : String → Except String (List Nat))
    (lines : List BatchLine) : Except String (List (String × List Nat)) :=
  extract_lines b64 lines []

/-- The base64 payload a record's extraction will attempt to decode, when
the record reaches the decode step. -/
def record_payload (r : BatchRecord) : Option String :=
  match r.response with
  | some (PartsShape.ok parts) =>
    match first_inline parts with
    | some blob => blob.data
    | none => none
  | _ => none

/-- `record_payload` lifted to transcript lines. -/
def line_payload : BatchLine → Option String
  | BatchLine.record r => record_payload r
  | _ => none

/-- Modelled from the spec: `all records with well-formed image payloads are
extracted and packaged` — the reference extraction that packages exactly the
records whose payload is present and decodes, skipping everything else. -/
def well_formed_images (b64 : String → Except String (List Nat)) :
    List BatchLine → Nat → List (String × List Nat)
  | [], _ => []
  | line :: rest, n =>
    match line with
    | BatchLine.record r =>
      match record_payload r with
      | some s =>
        match b64 s with
        | Except.ok img =>
          (record_key r n ++ ".png", img) :: well_formed_images b64 rest (n + 1)
        | Except.error _ => well_formed_images b64 rest n
      | none => well_formed_images b64 rest n
    | _ => well_formed_images b64 rest n

/-- A decoder that only accepts the payload string `"good"`. -/
def c6_b64 : String → Except String (List Nat) :=
  fun s => if s = "good" then Except.ok [1, 2, 3] else Except.error "binascii"

/-- A record whose payload fails base64 decoding. -/
def c6_bad_line : BatchLine :=
  BatchLine.record ⟨some "a", some (PartsShape.ok [⟨some ⟨some "bad"⟩⟩]), none⟩

/-- A record with a well-formed, decodable payload. -/
def c6_good_line : BatchLine :=
  BatchLine.record ⟨some "b", some (PartsShape.ok [⟨some ⟨some "good"⟩⟩]), none⟩

/-- A decoder that succeeds on every payload. -/
def c6w_b64 : String → Except String (List Nat) := fun _ => Except.ok [7]

/-- A transcript with one well-formed record, one mis-shaped record and one
explicit error record. -/
def c6w_lines : List BatchLine :=
  [BatchLine.record ⟨some "p1", some (PartsShape.ok [⟨some ⟨some "ok1"⟩⟩]), none⟩,
   BatchLine.record ⟨some "p2", some PartsShape.badShape, none⟩,
   BatchLine.record ⟨some "p3", none, some "quota exceeded"⟩]

/-- A payload value as seen by `_extract_image_from_response`: Python's
`inline_data.data` (and the byte-attribute probes) may hold raw bytes or a
base64 string. -/
inductive PData
  | bytes (b : List Nat)
  | str (s : String)
deriving DecidableEq, Repr

/-- Python truthiness of a payload value (`if data:`). -/
def pdata_truthy : PData → Bool
  | PData.bytes b => !b.isEmpty
  | PData.str s => !(s == "")

/-- The `inline_data` object of a response part; `data = none` models a
missing `data` attribute (the `hasattr` probe on it fails). -/
structure InlineData where
  data : Option PData
deriving DecidableEq, Repr

/-- One part of a Gemini response, with the attributes probed by
`_extract_image_from_response` (src/services/gemini_client.py).
`inline_data = none` models an absent attribute or a `None` value.
`as_image` describes the behaviour of calling `part.as_image()` and saving
the result: `none` = no such attribute; `some (Except.error ())` = the call
or the save raises (caught, probing continues); `some (Except.ok none)` =
a falsy image; `some (Except.ok (some b))` = PNG bytes `b`.
`image_bytes`, `image_bytes_priv` (the underscore-prefixed variant) and
`data_attr` (the `data` attribute) are the three byte-attribute probes. -/
structure RPart where
  inline_data : Option InlineData
  as_image : Option (Except Unit (Option (List Nat)))
  image_bytes : Option PData
  image_bytes_priv : Option PData
  data_attr : Option PData
  text : Option String

/-- The `content` object of a response candidate. -/
structure GContent where
  parts : List RPart

/-- One candidate of a Gemini response; `content = none` models a falsy
`content`. -/
structure GCandidate where
  content : Option GContent

/-- A Gemini response as probed by `_extract_image_from_response`:
`parts = none` models a missing attribute, `some []` a present-but-falsy
one (both fall through to the `candidates` branch). -/
structure GResponse where
  parts : Option (List RPart)
  candidates : Option (List GCandidate)

/-- The parts-selection prologue of `_extract_image_from_response`:
`response.parts` when present and truthy, else the first candidate's
`content.parts` when candidates exist and both `content` and its `parts`
are truthy, else no parts (which raises). -/
def select_parts (r : GResponse) : Option (List RPart) :=
  match r.parts with
  | some (p :: ps) => some (p :: ps)
  | _ =>
    match r.candidates with
    | some (c :: _) =>
      match c.content with
      | some ct =>
        match ct.parts with
        | q :: qs => some (q :: qs)
        | [] => none
      | none => none
    | _ => none

/-- Method 1 of the per-part probing: `inline_data.data`.  A truthy string
payload is base64-decoded when possible (the bare `except` keeps the string
on decode failure, and `_validate_image_bytes` then raises on the non-bytes
value); truthy bytes go straight to validation.  `some result` means the
method fires (returning or raising `result`); `none` means fall through to
the next method. -/
def method_inline (vb : List Nat → Except Unit (List Nat))
    (b64d : String → Except Unit (List Nat)) (p : RPart) :
    Option (Except Unit (List Nat)) :=
  match p.inline_data with
  | some blob =>
    match blob.data with
    | some d =>
      if pdata_truthy d then
        match d with
        | PData.bytes b => some (vb b)
        | PData.str s =>
          match b64d s with
          | Except.ok b => some (vb b)
          | Except.error _ => some (Except.error ())
      else none
    | none => none
  | none => none

/-- Method 2: `part.as_image()` saved as PNG; exceptions are caught and a
falsy image is ignored, both falling through. -/
def method_as_image (p : RPart) : Option (List Nat) :=
  match p.as_image with
  | some (Except.ok (some b)) => some b
  | _ => none

/-- One byte-attribute probe: fires only on a truthy value that is an
instance of bytes (a string value or a falsy value is skipped). -/
def attr_yield : Option PData → Option (List Nat)
  | some (PData.bytes (x :: xs)) => some (x :: xs)
  | _ => none

/-- Method 3: probe the `image_bytes`, underscore-prefixed and `data`
attributes in order. -/
def method_attrs (p : RPart) : Option (List Nat) :=
  match attr_yield p.image_bytes with
  | some b => some b
  | none =>
    match attr_yield p.image_bytes_priv with
    | some b => some b
    | none => attr_yield p.data_attr

/-- The three extraction methods applied to one part, in source order;
`none` means the part yields nothing and the loop moves on. -/
def try_part (vb : List Nat → Except Unit (List Nat))
    (b64d : String → Except Unit (List Nat)) (p : RPart) :
    Option (Except Unit (List Nat)) :=
  match method_inline vb b64d p with
  | some r => some r
  | none =>
    match method_as_image p with
    | some b => some (Except.ok b)
    | none =>
      match method_attrs p with
      | some b => some (vb b)
      | none => none

/-- The per-part loop: the first part on which a method fires decides the
outcome; if no part yields, raise `No image found in response`. -/
def extract_from_parts (vb : List Nat → Except Unit (List Nat))
    (b64d : String → Except Unit (List Nat)) :
    List RPart → Except Unit (List Nat)
  | [] => Except.error ()
  | p :: rest =>
    match try_part vb b64d p with
    | some r => r
    | none => extract_from_parts vb b64d rest

/-- `_extract_image_from_response`: select the parts (raising
`No parts found in response` when there are none) and probe them. `vb` is
the `_validate_image_bytes` oracle (PIL decode + PNG re-encode) and `b64d`
the base64 decoder. -/
def extract_image_from_response (vb : List Nat → Except Unit (List Nat))
    (b64d : String → Except Unit (List Nat)) (r : GResponse) :
    Except Unit (List Nat) :=
  match select_parts r with
  | none => Except.error ()
  | some ps => extract_from_parts vb b64d ps

/-- A validation oracle that always raises (never yields bytes). -/
def c8_vb : List Nat → Except Unit (List Nat) := fun _ => Except.error ()

/-- A base64 decoder that always raises. -/
def c8_b64d : String → Except Unit (List Nat) := fun _ => Except.error ()

/-- A response whose only part carries just text — none of the extraction
shapes can yield image bytes from it. -/
def c8_resp : GResponse :=
  ⟨some [⟨none, none, none, none, none, some "text only"⟩], none⟩

/-- The kind of one batch generation request built by
`_create_catalog_requests` (src/services/batch_service.py). -/
inductive ReqKind
  | cover
  | front
  | back
  | thankyou
deriving DecidableEq, Repr

/-- One request of the bulk job: its correlation `key`, the page number
embedded in the key, the request kind, and the reference image attached as
inline data (none for the model-free cover/thank-you pages).  The prompt
text is opaque configuration and is not modelled. -/
structure BatchRequest where
  key : String
  pageNum : Nat
  kind : ReqKind
  image : Option (List Nat)
deriving DecidableEq, Repr

/-- The cover request, keyed `page_` plus the zero-padded page number plus
`_cover`. -/
def cover_request (page_num : Nat) : BatchRequest :=
  ⟨"page_" ++ pad2 page_num ++ "_cover", page_num, ReqKind.cover, none⟩

/-- A front-view product request, keyed with the page number and the 1-based
product number. -/
def front_request (page_num prod_idx : Nat) (img : List Nat) : BatchRequest :=
  ⟨"page_" ++ pad2 page_num ++ "_product_" ++ toString (prod_idx + 1) ++
    "_front", page_num, ReqKind.front, some img⟩

/-- A back-view product request, keyed with the page number and the 1-based
product number. -/
def back_request (page_num prod_idx : Nat) (img : List Nat) : BatchRequest :=
  ⟨"page_" ++ pad2 page_num ++ "_product_" ++ toString (prod_idx + 1) ++
    "_back", page_num, ReqKind.back, some img⟩

/-- The thank-you request, keyed `page_` plus the zero-padded page number
plus `_thankyou`. -/
def thankyou_request (page_num : Nat) : BatchRequest :=
  ⟨"page_" ++ pad2 page_num ++ "_thankyou", page_num, ReqKind.thankyou, none⟩

/-- The per-product loop of `_create_catalog_requests`: for each product,
increment `page_num` and emit the front request, then increment again and
emit the back request.  Returns the built requests together with the final
value of `page_num`. -/
def product_requests : List (List Nat × List Nat) → Nat → Nat →
    List BatchRequest × Nat
  | [], _, page_num => ([], page_num)
  | fb :: rest, prod_idx, page_num =>
    let res := product_requests rest (prod_idx + 1) (page_num + 2)
    (front_request (page_num + 1) prod_idx fb.1 ::
      back_request (page_num + 2) prod_idx fb.2 :: res.1, res.2)

/-- `_create_catalog_requests` (src/services/batch_service.py): `page_num`
starts at 0; the cover request takes page 1, each product contributes a
front and a back request on consecutive pages, and the thank-you request
takes the next page after the loop.  The paired garment images model the
indexed front/back image lists (callers guarantee equal lengths). -/
def create_catalog_requests (fronts backs : List (List Nat)) :
    List BatchRequest :=
  let prods := product_requests (fronts.zip backs) 0 1
  cover_request 1 :: prods.1 ++ [thankyou_request (prods.2 + 1)]

/-- The page count announced by the submission response message in
src/routes/batch.py: twice the number of uploaded products plus two. -/
def announced_pages (front_data : List (List Nat)) : Nat :=
  front_data.length * 2 + 2

theorem single_view_pages_length_le (n : Nat) (c : Int) (fuel pi : Nat)
    (vt : Bool) (cp : Nat) :
    (single_view_pages n c fuel pi vt cp).length ≤ fuel := by
  induction fuel generalizing pi vt cp with
  | zero => simp [single_view_pages]
  | succ f ih =>
    simp only [single_view_pages]
    split
    · simp
    · simpa using Nat.succ_le_succ (ih _ _ _)

/-- C1 fails as stated: with `num_products = 3` and `max_pages = 5` the
plan has 4 entries, exceeding `max_pages - 2 = 3` (a negative `remaining`
still emits every collage page plus the fabric page). -/
theorem c1_counterexample :
    ¬ (((plan_catalog_pages 3 5).length : Int) ≤ (5 : Int) - 2) := by
  decide

/-- C1 (amended): for `num_products ≥ 3`, the bound
`len(plan_catalog_pages num_products max_pages) ≤ max_pages - 2` holds
whenever `max_pages ≥ min(num_products, 4) + 3` (so in particular for the
default budget of 10); below that the plan keeps its
`min(num_products, 4) + 1` collage/fabric pages and exceeds the budget. -/
theorem c1_amended (num_products : Nat) (max_pages : Int)
    (h3 : 3 ≤ num_products)
    (hbudget : (min num_products 4 : Int) + 3 ≤ max_pages) :
    ((plan_catalog_pages num_products max_pages).length : Int) ≤ max_pages - 2 := by
  have hne : ¬ num_products ≤ 2 := by omega
  simp only [plan_catalog_pages, hne, if_false]
  have hsingle := single_view_pages_length_le num_products (max_pages - 2)
    (max_pages - 2 - (min num_products 4 : Int) - 1).toNat
    (min num_products 4 + 1) true 0
  have hrem : ((max_pages - 2 - (min num_products 4 : Int) - 1).toNat : Int)
      = max_pages - 2 - (min num_products 4 : Int) - 1 := by
    have : (0 : Int) ≤ max_pages - 2 - (min num_products 4 : Int) - 1 := by omega
    exact Int.toNat_of_nonneg this
  simp only [List.length_append, List.length_map, List.length_range]
  push_cast
  omega

/-- C1 amended witness: the default budget `max_pages = 10` with 5 products
satisfies the amended hypotheses, and the plan indeed has 8 ≤ 10 - 2 pages. -/
theorem c1_amended_witness :
    ((plan_catalog_pages 5 10).length : Int) ≤ (10 : Int) - 2 :=
  c1_amended 5 10 (by decide) (by decide)

/-- C2: `plan_catalog_pages 5 10` returns exactly 8 entries — 4 collages with
product indices 0,1,2,3, then one fabric entry with product index 4, then 3
single-view entries alternating front/back whose first entry is product 0,
with `page_number` values contiguous from 1 to 8. -/
theorem c2_scenario :
    (plan_catalog_pages 5 10).length = 8 ∧
    ((plan_catalog_pages 5 10).take 4).map (fun e => (e.layout, e.prod_idx)) =
      [(LayoutType.collage, 0), (LayoutType.collage, 1),
       (LayoutType.collage, 2), (LayoutType.collage, 3)] ∧
    ((plan_catalog_pages 5 10).get? 4).map (fun e => (e.layout, e.prod_idx)) =
      some (LayoutType.fabric_v2, 4) ∧
    ((plan_catalog_pages 5 10).drop 5).map (fun e => (e.layout, e.extra.view)) =
      [(LayoutType.single_v2, some View.front),
       (LayoutType.single_v2, some View.back),
       (LayoutType.single_v2, some View.front)] ∧
    ((plan_catalog_pages 5 10).get? 5).map PageEntry.prod_idx = some 0 ∧
    (plan_catalog_pages 5 10).map (fun e => e.extra.page_number) =
      [some 1, some 2, some 3, some 4, some 5, some 6, some 7, some 8] := by
  decide

theorem single_view_pages_prod_idx_lt (n : Nat) (c : Int) (hn : 1 ≤ n)
    (fuel pi : Nat) (vt : Bool) (cp : Nat) :
    ∀ e ∈ single_view_pages n c fuel pi vt cp, e.prod_idx < n := by
  induction fuel generalizing pi vt cp with
  | zero => intro e he; simp [single_view_pages] at he
  | succ f ih =>
    intro e he
    simp only [single_view_pages] at he
    split at he
    · simp at he
    · rcases List.mem_cons.mp he with h | h
      · subst h
        exact Nat.mod_lt _ hn
      · exact ih _ _ _ e h

/-- C9: for `num_products ≥ 1`, every `product_index` referenced by an entry
of `plan_catalog_pages num_products max_pages` satisfies
`0 ≤ product_index < num_products`. -/
theorem c9_coverage (num_products : Nat) (max_pages : Int)
    (hn : 1 ≤ num_products) :
    ∀ e ∈ plan_catalog_pages num_products max_pages,
      0 ≤ e.prod_idx ∧ e.prod_idx < num_products := by
  intro e he
  refine ⟨Nat.zero_le _, ?_⟩
  by_cases hle : num_products ≤ 2
  · simp only [plan_catalog_pages, hle, if_true, List.mem_append,
      List.mem_map, List.mem_range, List.mem_singleton] at he
    rcases he with ⟨i, hi, rfl⟩ | rfl
    · exact hi
    · exact hn
  · simp only [plan_catalog_pages, hle, if_false, List.mem_append,
      List.mem_map, List.mem_range] at he
    rcases he with (⟨i, _, rfl⟩ | ⟨i, _, rfl⟩) | hmem
    · exact Nat.mod_lt _ hn
    · exact Nat.mod_lt _ hn
    · exact single_view_pages_prod_idx_lt _ _ hn _ _ _ _ e hmem

/-- C9 witness: in the concrete plan for 5 products and the default budget,
the collage entry at position 3 references product index 3, and 3 < 5. -/
theorem c9_witness :
    0 ≤ (⟨LayoutType.collage, 3, ⟨none, some 4⟩⟩ : PageEntry).prod_idx ∧
    (⟨LayoutType.collage, 3, ⟨none, some 4⟩⟩ : PageEntry).prod_idx < 5 :=
  c9_coverage 5 10 (by decide) _ (by decide)

/-- C4: whenever the primary-model attempt fails, `generate_model_image`
makes exactly one further attempt, with the fallback model, and its outcome
is the fallback attempt's outcome — in particular, if the fallback attempt
also fails, the error raised is the fallback attempt's error. -/
theorem c4_fallback {E B : Type} (call : String → Except E B) (e1 : E)
    (hfail : call PRIMARY_MODEL = Except.error e1) :
    (generate_model_image call).1 = [PRIMARY_MODEL, FALLBACK_MODEL] ∧
    (generate_model_image call).2 = call FALLBACK_MODEL ∧
    (∀ e2 : E, call FALLBACK_MODEL = Except.error e2 →
      (generate_model_image call).2 = Except.error e2) := by
  simp only [generate_model_image, hfail]
  cases h2 : call FALLBACK_MODEL with
  | ok r => exact ⟨rfl, rfl, fun e2 he => Except.noConfusion he⟩
  | error e => exact ⟨rfl, rfl, fun e2 he => he⟩

/-- C4 witness: with an oracle that fails both attempts, both models are
attempted in order and the raised error is the fallback attempt's error. -/
theorem c4_witness :
    (generate_model_image (fun m =>
        if m = PRIMARY_MODEL then (Except.error "primary down" : Except String Nat)
        else Except.error "fallback down")).1 = [PRIMARY_MODEL, FALLBACK_MODEL] ∧
    (generate_model_image (fun m =>
        if m = PRIMARY_MODEL then (Except.error "primary down" : Except String Nat)
        else Except.error "fallback down")).2 = Except.error "fallback down" :=
  ⟨(c4_fallback _ "primary down" rfl).1,
   (c4_fallback _ "primary down" rfl).2.2 "fallback down" rfl⟩

/-- C5: running the cached generation twice with the same fingerprint
invokes the underlying generation at most once in total, and both runs
return byte-identical image bytes. -/
theorem c5_cache_idempotent (cache : List (String × List Nat)) (calls : Nat)
    (key : String) (compute : Nat → List Nat) :
    (generate_cached (generate_cached cache calls key compute).1
        (generate_cached cache calls key compute).2.1 key compute).2.1
      ≤ calls + 1 ∧
    (generate_cached (generate_cached cache calls key compute).1
        (generate_cached cache calls key compute).2.1 key compute).2.2
      = (generate_cached cache calls key compute).2.2 := by
  cases h : cache_lookup cache key with
  | some img =>
    simp [generate_cached, h]
  | none =>
    simp [generate_cached, h, cache_store, cache_lookup]

/-- C7: each of the three terminal failure states of the external service —
`JOB_STATE_CANCELLED`, `JOB_STATE_EXPIRED` and `JOB_STATE_FAILED` — maps to
the single internal status `failed`. -/
theorem c7_state_mapping :
    map_batch_state "JOB_STATE_CANCELLED" = "failed" ∧
    map_batch_state "JOB_STATE_EXPIRED" = "failed" ∧
    map_batch_state "JOB_STATE_FAILED" = "failed" := by
  refine ⟨rfl, rfl, rfl⟩

theorem content_pages_loop_append {E B : Type} (g : Gemini E B)
    (pre rest : List PageEntry) (p : Nat) :
    content_pages_loop g p (pre ++ rest) =
      content_pages_loop g p pre ++ content_pages_loop g (p + pre.length) rest := by
  induction pre generalizing p with
  | nil => simp [content_pages_loop]
  | cons e pre ih =>
    rw [List.cons_append]
    simp only [content_pages_loop, List.length_cons]
    cases entry_call g p e with
    | ok b =>
      rw [ih (p + 1), List.cons_append]
      have h : p + 1 + pre.length = p + (pre.length + 1) := by omega
      rw [h]
    | error err =>
      rw [ih (p + 1)]
      have h : p + 1 + pre.length = p + (pre.length + 1) := by omega
      rw [h]

/-- C3: in `generate_master_catalog`, a failing generation call for any
entry of the page plan is caught and the entry skipped — assembly continues
with the remaining entries and the successful pages (cover, surviving
content pages in order, thank-you) are still returned — whereas a failure of
the cover generation, or of the thank-you generation, propagates and aborts
the whole catalog job with that error. -/
theorem c3_fault_tolerance {E B : Type} :
    (∀ (g : Gemini E B) (num_products : Nat) (pre post : List PageEntry)
        (e : PageEntry) (err : E) (c t : B),
      plan_catalog_pages num_products 10 = pre ++ e :: post →
      entry_call g (pre.length + 1) e = Except.error err →
      g.generate_catalog_cover_enhanced = Except.ok c →
      g.generate_catalog_thankyou_simple = Except.ok t →
      generate_master_catalog g num_products =
        Except.ok (("00_cover.png", c) ::
          (content_pages_loop g 1 pre ++
            content_pages_loop g (pre.length + 2) post) ++
          [("99_thankyou.png", t)])) ∧
    (∀ (g : Gemini E B) (num_products : Nat) (err : E),
      g.generate_catalog_cover_enhanced = Except.error err →
      generate_master_catalog g num_products = Except.error err) ∧
    (∀ (g : Gemini E B) (num_products : Nat) (c : B) (err : E),
      g.generate_catalog_cover_enhanced = Except.ok c →
      g.generate_catalog_thankyou_simple = Except.error err →
      generate_master_catalog g num_products = Except.error err) := by
  refine ⟨?_, ?_, ?_⟩
  · intro g num_products pre post e err c t hplan hfail hcover hty
    simp only [generate_master_catalog, generate_master_catalog_pages, hplan,
      hcover, hty]
    rw [content_pages_loop_append g pre (e :: post) 1]
    have h1 : 1 + pre.length = pre.length + 1 := by omega
    rw [h1]
    simp only [content_pages_loop, hfail]
  · intro g num_products err hcover
    simp [generate_master_catalog, generate_master_catalog_pages, hcover]
  · intro g num_products c err hcover hty
    simp [generate_master_catalog, generate_master_catalog_pages, hcover, hty]

/-- C3 witness: assembling the 5-product catalog with the page-3 collage
failing still succeeds, returning the cover, the surviving content pages
and the thank-you page. -/
theorem c3_witness :
    generate_master_catalog c3_gemini 5 =
      Except.ok (("00_cover.png", 100) ::
        (content_pages_loop c3_gemini 1 c3_pre ++
          content_pages_loop c3_gemini 4 c3_post) ++
        [("99_thankyou.png", 101)]) :=
  (@c3_fault_tolerance String Nat).1 c3_gemini 5 c3_pre c3_post c3_entry
    "boom" 100 101 (by decide) rfl rfl rfl

/-- C6 fails as stated: a record whose image payload cannot be decoded
(base64 failure, not a `KeyError`/`IndexError`) aborts the whole extraction,
so the later record with a well-formed payload — which extracts fine on its
own — is not packaged. -/
theorem c6_counterexample :
    download_batch_images c6_b64 [c6_bad_line, c6_good_line] =
      Except.error "binascii" ∧
    download_batch_images c6_b64 [c6_good_line] =
      Except.ok [("b.png", [1, 2, 3])] := by
  exact ⟨rfl, rfl⟩

theorem extract_lines_ok (b64 : String → Except String (List Nat))
    (lines : List BatchLine)
    (hjson : ∀ l ∈ lines, l ≠ BatchLine.malformed)
    (hdec : ∀ l ∈ lines, ∀ s, line_payload l = some s →
      ∃ img, b64 s = Except.ok img) :
    ∀ images, extract_lines b64 lines images =
      Except.ok (images ++ well_formed_images b64 lines images.length) := by
  induction lines with
  | nil => intro images; simp [extract_lines, well_formed_images]
  | cons l rest ih =>
    have hjson2 : ∀ x ∈ rest, x ≠ BatchLine.malformed :=
      fun x hx => hjson x (List.mem_cons_of_mem _ hx)
    have hdec2 : ∀ x ∈ rest, ∀ s, line_payload x = some s →
        ∃ img, b64 s = Except.ok img :=
      fun x hx => hdec x (List.mem_cons_of_mem _ hx)
    intro images
    cases l with
    | blank => simpa [extract_lines, well_formed_images] using ih hjson2 hdec2 images
    | malformed => exact absurd rfl (hjson BatchLine.malformed (List.mem_cons_self _ _))
    | record r =>
      cases hresp : r.response with
      | none =>
        simpa [extract_lines, well_formed_images, record_payload, hresp]
          using ih hjson2 hdec2 images
      | some shape =>
        cases shape with
        | badShape =>
          simpa [extract_lines, well_formed_images, record_payload, hresp]
            using ih hjson2 hdec2 images
        | ok parts =>
          cases hfi : first_inline parts with
          | none =>
            simpa [extract_lines, well_formed_images, record_payload, hresp, hfi]
              using ih hjson2 hdec2 images
          | some blob =>
            cases hdata : blob.data with
            | none =>
              simpa [extract_lines, well_formed_images, record_payload, hresp,
                hfi, hdata] using ih hjson2 hdec2 images
            | some s =>
              have hpay : line_payload (BatchLine.record r) = some s := by
                simp [line_payload, record_payload, hresp, hfi, hdata]
              obtain ⟨img, himg⟩ :=
                hdec _ (List.mem_cons_self _ _) s hpay
              simp only [extract_lines, well_formed_images, record_payload,
                hresp, hfi, hdata, himg]
              rw [ih hjson2 hdec2
                (images ++ [(record_key r images.length ++ ".png", img)])]
              simp

/-- C6 (amended): errors the extraction loop catches — a mis-shaped record
(`KeyError`/`IndexError` while navigating candidates, content, parts or the
`data` field), an absent or empty response, or an explicit error record —
do not abort extraction, and every record with a well-formed, decodable
image payload is extracted and packaged; however, a line that is not valid
JSON or an image payload whose base64 decoding fails aborts extraction of
the remaining records. -/
theorem c6_amended (b64 : String → Except String (List Nat))
    (lines : List BatchLine)
    (hjson : ∀ l ∈ lines, l ≠ BatchLine.malformed)
    (hdec : ∀ l ∈ lines, ∀ s, line_payload l = some s →
      ∃ img, b64 s = Except.ok img) :
    download_batch_images b64 lines =
      Except.ok (well_formed_images b64 lines 0) := by
  simpa [download_batch_images] using extract_lines_ok b64 lines hjson hdec []

/-- C6 amended witness: on a transcript whose payloads all decode, the two
erroneous-but-caught records are skipped and the well-formed record is
packaged. -/
theorem c6_witness :
    download_batch_images c6w_b64 c6w_lines =
      Except.ok [("p1.png", [7])] :=
  (c6_amended c6w_b64 c6w_lines (by decide)
    (fun _ _ s _ => ⟨[7], rfl⟩)).trans rfl

theorem extract_from_parts_error (vb : List Nat → Except Unit (List Nat))
    (b64d : String → Except Unit (List Nat)) (ps : List RPart)
    (h : ∀ p ∈ ps, ∀ b, try_part vb b64d p ≠ some (Except.ok b)) :
    extract_from_parts vb b64d ps = Except.error () := by
  induction ps with
  | nil => rfl
  | cons p rest ih =>
    have hrest : ∀ q ∈ rest, ∀ b, try_part vb b64d q ≠ some (Except.ok b) :=
      fun q hq => h q (List.mem_cons_of_mem _ hq)
    simp only [extract_from_parts]
    cases htp : try_part vb b64d p with
    | none => exact ih hrest
    | some res =>
      cases res with
      | ok b => exact absurd htp (h p (List.mem_cons_self _ _) b)
      | error e => rfl

theorem method_inline_ok_vb (vb : List Nat → Except Unit (List Nat))
    (b64d : String → Except Unit (List Nat)) (p : RPart) (b : List Nat)
    (h : method_inline vb b64d p = some (Except.ok b)) :
    ∃ x, vb x = Except.ok b := by
  unfold method_inline at h
  cases hid : p.inline_data with
  | none => simp [hid] at h
  | some blob =>
    simp only [hid] at h
    cases hd : blob.data with
    | none => simp [hd] at h
    | some d =>
      simp only [hd] at h
      by_cases ht : pdata_truthy d = true
      · simp only [if_pos ht] at h
        cases d with
        | bytes bb => exact ⟨bb, by simpa using h⟩
        | str s =>
          cases hb : b64d s with
          | ok bb =>
            simp only [hb] at h
            exact ⟨bb, by simpa using h⟩
          | error e =>
            simp only [hb] at h
            simp at h
      · simp only [if_neg ht] at h
        simp at h

theorem try_part_ok_nonempty (vb : List Nat → Except Unit (List Nat))
    (b64d : String → Except Unit (List Nat)) (p : RPart)
    (hvb : ∀ x b, vb x = Except.ok b → b ≠ [])
    (hasi : ∀ b, p.as_image = some (Except.ok (some b)) → b ≠ [])
    (b : List Nat) (h : try_part vb b64d p = some (Except.ok b)) : b ≠ [] := by
  unfold try_part at h
  cases hmi : method_inline vb b64d p with
  | some r1 =>
    simp only [hmi] at h
    have hr : r1 = Except.ok b := by simpa using h
    subst hr
    obtain ⟨x, hx⟩ := method_inline_ok_vb vb b64d p b hmi
    exact hvb x b hx
  | none =>
    simp only [hmi] at h
    cases hma : method_as_image p with
    | some bb =>
      simp only [hma] at h
      have hbb : bb = b := by simpa using h
      subst hbb
      unfold method_as_image at hma
      cases hai : p.as_image with
      | none => simp [hai] at hma
      | some res =>
        simp only [hai] at hma
        cases res with
        | error e => simp at hma
        | ok ob =>
          cases ob with
          | none => simp at hma
          | some bb3 =>
            have hb3 : bb3 = bb := by simpa using hma
            subst hb3
            exact hasi bb3 hai
    | none =>
      simp only [hma] at h
      cases hmat : method_attrs p with
      | some bb =>
        simp only [hmat] at h
        have hvbb : vb bb = Except.ok b := by simpa using h
        exact hvb bb b hvbb
      | none => simp [hmat] at h

theorem extract_from_parts_ok_nonempty (vb : List Nat → Except Unit (List Nat))
    (b64d : String → Except Unit (List Nat))
    (hvb : ∀ x b, vb x = Except.ok b → b ≠ []) :
    ∀ ps : List RPart,
      (∀ p ∈ ps, ∀ b, p.as_image = some (Except.ok (some b)) → b ≠ []) →
      ∀ b, extract_from_parts vb b64d ps = Except.ok b → b ≠ [] := by
  intro ps
  induction ps with
  | nil => intro _ b h; simp [extract_from_parts] at h
  | cons p rest ih =>
    intro hasi b h
    simp only [extract_from_parts] at h
    cases htp : try_part vb b64d p with
    | none =>
      simp only [htp] at h
      exact ih (fun q hq => hasi q (List.mem_cons_of_mem _ hq)) b h
    | some res =>
      simp only [htp] at h
      subst h
      exact try_part_ok_nonempty vb b64d p hvb
        (fun b2 => hasi p (List.mem_cons_self _ _) b2) b htp

/-- C8: response parsing fails closed — for every response in which none of
the known extraction shapes (inline-data payload, base64 payload, `as_image`
accessor, byte attributes) yields image bytes, `_extract_image_from_response`
raises; and assuming the validation oracle and the response's `as_image`
accessors never produce empty bytes (PIL re-encoding a decodable image
always yields a non-empty PNG), the function never returns empty bytes. -/
theorem c8_fail_closed (vb : List Nat → Except Unit (List Nat))
    (b64d : String → Except Unit (List Nat)) (r : GResponse)
    (hvb : ∀ x b, vb x = Except.ok b → b ≠ [])
    (hasi : ∀ ps, select_parts r = some ps →
      ∀ p ∈ ps, ∀ b, p.as_image = some (Except.ok (some b)) → b ≠ []) :
    ((∀ ps, select_parts r = some ps →
        ∀ p ∈ ps, ∀ b, try_part vb b64d p ≠ some (Except.ok b)) →
      extract_image_from_response vb b64d r = Except.error ()) ∧
    (∀ b, extract_image_from_response vb b64d r = Except.ok b → b ≠ []) := by
  constructor
  · intro hno
    unfold extract_image_from_response
    cases hsel : select_parts r with
    | none => rfl
    | some ps => exact extract_from_parts_error vb b64d ps (hno ps hsel)
  · intro b hok
    unfold extract_image_from_response at hok
    cases hsel : select_parts r with
    | none => rw [hsel] at hok; exact absurd hok (by simp)
    | some ps =>
      rw [hsel] at hok
      exact extract_from_parts_ok_nonempty vb b64d hvb ps
        (fun p hp b2 => hasi ps hsel p hp b2) b hok

/-- C8 witness: on a text-only response, `_extract_image_from_response`
raises rather than returning (empty) bytes. -/
theorem c8_witness :
    extract_image_from_response c8_vb c8_b64d c8_resp = Except.error () :=
  (c8_fail_closed c8_vb c8_b64d c8_resp
      (fun _ b h => Except.noConfusion h)
      (by
        intro ps hsel p hp b hai
        rw [show select_parts c8_resp =
          some [(⟨none, none, none, none, none, some "text only"⟩ : RPart)]
          from rfl] at hsel
        injection hsel with h2
        subst h2
        simp at hp
        subst hp
        exact Option.noConfusion hai)).1
    (by
      intro ps hsel p hp b htp
      rw [show select_parts c8_resp =
        some [(⟨none, none, none, none, none, some "text only"⟩ : RPart)]
        from rfl] at hsel
      injection hsel with h2
      subst h2
      simp at hp
      subst hp
      exact Option.noConfusion htp)

theorem product_requests_spec :
    ∀ (pairs : List (List Nat × List Nat)) (i p : Nat),
      (product_requests pairs i p).2 = p + 2 * pairs.length ∧
      (product_requests pairs i p).1.map BatchRequest.pageNum =
        List.range' (p + 1) (2 * pairs.length) ∧
      (product_requests pairs i p).1.map BatchRequest.kind =
        (List.replicate pairs.length [ReqKind.front, ReqKind.back]).flatten := by
  intro pairs
  induction pairs with
  | nil => intro i p; simp [product_requests]
  | cons fb rest ih =>
    intro i p
    obtain ⟨ih1, ih2, ih3⟩ := ih (i + 1) (p + 2)
    refine ⟨?_, ?_, ?_⟩
    · simp only [product_requests, ih1, List.length_cons]
      omega
    · simp only [product_requests, List.map_cons, ih2, List.length_cons]
      rw [show 2 * (rest.length + 1) = 2 * rest.length + 1 + 1 by omega]
      rw [List.range'_succ, List.range'_succ]
      simp [front_request, back_request]
    · simp only [product_requests, List.map_cons, ih3, List.length_cons,
        List.replicate_succ, List.flatten_cons]
      simp [front_request, back_request]

/-- C10: for a batch catalog submission with `N ≥ 1` products, the request
list contains exactly `2 * N + 2` requests — matching the page count the
submission response announces — with page numbers contiguous from 1 to
`2 * N + 2`, consisting of one cover request, then one front-view and one
back-view request per product, then one thank-you request. -/
theorem c10_batch_requests (fronts backs : List (List Nat))
    (hone : 1 ≤ fronts.length) (hlen : fronts.length = backs.length) :
    (create_catalog_requests fronts backs).length = announced_pages fronts ∧
    announced_pages fronts = 2 * fronts.length + 2 ∧
    (create_catalog_requests fronts backs).map BatchRequest.pageNum =
      List.range' 1 (2 * fronts.length + 2) ∧
    (create_catalog_requests fronts backs).map BatchRequest.kind =
      ReqKind.cover ::
        (List.replicate fronts.length [ReqKind.front, ReqKind.back]).flatten ++
        [ReqKind.thankyou] := by
  have hzip : (fronts.zip backs).length = fronts.length := by
    rw [List.length_zip, hlen, Nat.min_self]
  obtain ⟨h1, h2, h3⟩ := product_requests_spec (fronts.zip backs) 0 1
  refine ⟨?_, ?_, ?_, ?_⟩
  · have hlen2 : (product_requests (fronts.zip backs) 0 1).1.length =
        2 * fronts.length := by
      have := congrArg List.length h2
      simpa [hzip] using this
    simp [create_catalog_requests, announced_pages, hlen2]
    omega
  · simp [announced_pages]
    omega
  · simp only [create_catalog_requests, List.map_cons, List.map_append,
      List.map_singleton, h2, h1, hzip, cover_request, thankyou_request]
    rw [show 2 * fronts.length + 2 = (2 * fronts.length + 1) + 1 by omega]
    rw [List.range'_1_concat, List.range'_succ]
    simp
    omega
  · simp only [create_catalog_requests, List.map_cons, List.map_append,
      List.map_singleton, h3, hzip, cover_request, thankyou_request]
    simp

/-- C10 witness: a single-product submission yields 4 requests — cover,
front, back, thank-you — numbered 1 to 4, matching the announced count. -/
theorem c10_witness :
    (create_catalog_requests [[1]] [[2]]).length = announced_pages [[1]] ∧
    announced_pages ([[1]] : List (List Nat)) =
      2 * ([[1]] : List (List Nat)).length + 2 ∧
    (create_catalog_requests [[1]] [[2]]).map BatchRequest.pageNum =
      List.range' 1 (2 * ([[1]] : List (List Nat)).length + 2) ∧
    (create_catalog_requests [[1]] [[2]]).map BatchRequest.kind =
      ReqKind.cover ::
        (List.replicate ([[1]] : List (List Nat)).length
          [ReqKind.front, ReqKind.back]).flatten ++
        [ReqKind.thankyou] :=
  c10_batch_requests [[1]] [[2]] (by decide) rfl
